import Mathlib

/-!
Verification of the `create-open-mcp` project scaffolding generator.

This development shallowly embeds, in Lean, the parts of the generator that
the specification makes claims about:

* the ESLint boundary configuration emitted by `getEslintConfig`
  (templates/prettier-config.ts): layer classification, the
  `boundaries/element-types` lattice and the `boundaries/external` rules;
* the generated quality-gate bash script emitted by `getCodeQualityScript`
  (templates/code-quality-script.ts): each CHECK block is translated into a
  function from an abstract project (a list of files with line contents) to
  the violations and warnings it prints, and the whole script into an
  ordered run that models `set -e` aborts and the final exit status;
* the CLI entry point's project-name validation (`main`).

Files are modelled as a path plus a list of content lines; `grep`-style
pattern scans are modelled by executable character-list matchers that follow
the concrete regexes appearing in the script.
-/

/-! ## Character/string matching primitives

The quality script uses `grep` with three kinds of patterns:
case-insensitive word-bounded words (`grep -rniE "\bPAT\b"`),
case-insensitive literal fragments (`grep -rniE "as any"`), and
case-sensitive fragments / simple regexes (`grep -rnE`).  We implement the
corresponding matchers on `List Char`. -/

/-- A word constituent for `grep`'s `\b` boundary: `[A-Za-z0-9_]`. -/
def isWordChar (c : Char) : Bool :=
  c.isAlpha || c.isDigit || c = '_'

/-- Case-insensitively strip `needle` from the front of `hay`; return the
remaining suffix on success. -/
def ciStrip : List Char → List Char → Option (List Char)
  | [], hay => some hay
  | _ :: _, [] => none
  | n :: ns, h :: hs => if n.toLower = h.toLower then ciStrip ns hs else none

/-- Case-sensitively strip `needle` from the front of `hay`. -/
def csStrip : List Char → List Char → Option (List Char)
  | [], hay => some hay
  | _ :: _, [] => none
  | n :: ns, h :: hs => if n = h then csStrip ns hs else none

/-- Does `hay` contain `needle` as a case-insensitive sublist? -/
def ciHasSub (needle : List Char) : List Char → Bool
  | [] => needle.isEmpty
  | c :: rest => (ciStrip needle (c :: rest)).isSome || ciHasSub needle rest

/-- Does `hay` contain `needle` as a case-sensitive sublist? -/
def csHasSub (needle : List Char) : List Char → Bool
  | [] => needle.isEmpty
  | c :: rest => (csStrip needle (c :: rest)).isSome || csHasSub needle rest

/-- Case-insensitively find the first occurrence of `needle` in `hay` and
return the suffix that follows it. -/
def ciFindAfter (needle : List Char) : List Char → Option (List Char)
  | [] => if needle.isEmpty then some [] else none
  | c :: rest =>
    match ciStrip needle (c :: rest) with
    | some suf => some suf
    | none => ciFindAfter needle rest

/-- Case-sensitively find the first occurrence of `needle` in `hay` and
return the suffix that follows it. -/
def csFindAfter (needle : List Char) : List Char → Option (List Char)
  | [] => if needle.isEmpty then some [] else none
  | c :: rest =>
    match csStrip needle (c :: rest) with
    | some suf => some suf
    | none => csFindAfter needle rest

/-- `ciSeq [a, b, c] hay` models the regex `a.*b.*c` (case-insensitive):
ordered, possibly separated occurrences. -/
def ciSeq : List (List Char) → List Char → Bool
  | [], _ => true
  | n :: ns, hay =>
    match ciFindAfter n hay with
    | some suf => ciSeq ns suf
    | none => false

/-- `csSeq` models `a.*b.*c` for case-sensitive `grep -E`. -/
def csSeq : List (List Char) → List Char → Bool
  | [], _ => true
  | n :: ns, hay =>
    match csFindAfter n hay with
    | some suf => csSeq ns suf
    | none => false

/-- One step of the word-bounded scan: does a `\bneedle\b` match start at the
current position, given the previous character (`none` at line start)? -/
def wordHere (needle : List Char) (prev : Option Char) (hay : List Char) : Bool :=
  (match prev with
   | none => true
   | some c => !isWordChar c) &&
  (match ciStrip needle hay with
   | some [] => true
   | some (d :: _) => !isWordChar d
   | none => false)

/-- Scan `hay` for a case-insensitive word-bounded occurrence of `needle`,
modelling `grep -iE "\bneedle\b"` on a single line. -/
def wordScan (needle : List Char) (prev : Option Char) : List Char → Bool
  | [] => false
  | c :: rest => wordHere needle prev (c :: rest) || wordScan needle (some c) rest

/-- `grep -rniE "\bpat\b"` on one line. -/
def lineHasWord (pat : String) (line : String) : Bool :=
  wordScan pat.toList none line.toList

/-- `grep -rniE "pat"` (case-insensitive literal fragment) on one line. -/
def lineHasCi (pat : String) (line : String) : Bool :=
  ciHasSub pat.toList line.toList

/-- Case-sensitive fragment containment on one line. -/
def lineHasCs (pat : String) (line : String) : Bool :=
  csHasSub pat.toList line.toList

/-- `s` starts with `pre` (kernel-computable prefix test). -/
def strStarts (pre s : String) : Bool :=
  (csStrip pre.toList s.toList).isSome

/-- `s` ends with `sufx` (kernel-computable suffix test). -/
def strEnds (sufx s : String) : Bool :=
  List.isSuffixOf sufx.toList s.toList

/-- Split a character list at `/` separators. -/
def splitSlashAux (cur : List Char) : List Char → List String
  | [] => [String.mk cur.reverse]
  | c :: rest =>
    if c = '/' then String.mk cur.reverse :: splitSlashAux [] rest
    else splitSlashAux (c :: cur) rest

/-- Parse a decimal numeral; `none` on the empty string or any non-digit
character (such as the embedded newline of `0\n0`). -/
def strToNatOpt (s : String) : Option Nat :=
  match s.toList with
  | [] => none
  | cs =>
    if cs.all Char.isDigit then
      some (cs.foldl (fun n c => 10 * n + (c.toNat - 48)) 0)
    else none

/-! ## The generated ESLint boundary configuration

Embedded from `getEslintConfig` in templates/prettier-config.ts.  The
`settings['boundaries/elements']` block classifies each path under `src/`
into a layer; `boundaries/element-types` is a default-deny rule list over
layer pairs; `boundaries/external` restricts imports of external packages
per layer with a default of allow. -/

/-- The layer tags declared in `settings['boundaries/elements']`. -/
inductive Layer where
  | domain
  | application
  | infrastructure
  | mcp
  | di
  | entry
deriving DecidableEq, Repr, Fintype

open Layer in
/-- Path classification from the `boundaries/elements` patterns:
`src/domain/**`, `src/application/**`, `src/infrastructure/**`,
`src/mcp/**`, `src/di/**`, and the single file `src/index.ts` (entry). -/
def classify (path : String) : Option Layer :=
  if strStarts "src/domain/" path then some domain
  else if strStarts "src/application/" path then some application
  else if strStarts "src/infrastructure/" path then some infrastructure
  else if strStarts "src/mcp/" path then some mcp
  else if strStarts "src/di/" path then some di
  else if path = "src/index.ts" then some entry
  else none

open Layer in
/-- The `boundaries/element-types` rules, in configuration order: each entry
pairs the rule's `from` layers with its `allow` list. -/
def elementTypeRules : List (List Layer × List Layer) :=
  [ ([domain], [domain]),
    ([application], [application, domain]),
    ([infrastructure], [infrastructure, application, domain]),
    ([mcp], [mcp, application, di]),
    ([di], [di, application, infrastructure, mcp]),
    ([entry], [mcp, di]) ]

/-- Evaluation of `boundaries/element-types` with `default: 'disallow'`:
an edge is allowed iff a rule matches the source layer and the destination
layer is in that rule's allow list. -/
def edgeAllowed (src dst : Layer) : Bool :=
  match elementTypeRules.find? (fun r => src ∈ r.1) with
  | some r => dst ∈ r.2
  | none => false

/-- Package-pattern matching for `boundaries/external`: `*` matches every
package, `name/*` matches by prefix, anything else matches exactly. -/
def pkgPatternMatches (pat pkg : String) : Bool :=
  if pat = "*" then true
  else if strEnds "/*" pat then
    strStarts (String.mk (pat.toList.take (pat.toList.length - 1))) pkg
  else pkg = pat

/-- The `boundaries/external` rules: `from` layers paired with their
`disallow` package patterns.  The domain rule disallows `*` (every package);
the application rule disallows the infrastructure package list. -/
def externalRules : List (List Layer × List String) :=
  [ ([Layer.domain], ["*"]),
    ([Layer.application],
      ["express", "fastify", "koa", "better-sqlite3", "pg", "mysql2",
       "neo4j-driver", "mongodb", "@modelcontextprotocol/*"]) ]

/-- Evaluation of `boundaries/external` with `default: 'allow'`: an external
package import is allowed unless a rule matching the source layer disallows
the package. -/
def externalAllowed (src : Layer) (pkg : String) : Bool :=
  match externalRules.find? (fun r => src ∈ r.1) with
  | some r => !r.2.any (fun pat => pkgPatternMatches pat pkg)
  | none => true

open Layer in
/-- The five-layer dependency lattice exactly as the specification words it:
domain ⊆ {domain}; application ⊆ {application, domain}; infrastructure ⊆
{infrastructure, application, domain}; protocol-adapter (mcp) ⊆ {mcp,
application, di (wiring)}; di ⊆ {di, application, infrastructure, mcp}.
The spec does not describe the entry layer, which the claim leaves out of
scope; we give it the empty set here and exclude it by hypothesis. -/
def specAllowedLayers : Layer → List Layer
  | domain => [domain]
  | application => [application, domain]
  | infrastructure => [infrastructure, application, domain]
  | mcp => [mcp, application, di]
  | di => [di, application, infrastructure, mcp]
  | entry => []

/-! ## Abstract projects and the generated quality-gate script

The script `scripts/check-code-quality.sh` emitted by `getCodeQualityScript`
runs from the root of a generated project.  We model the project as a list
of files, each a path (slash-separated, relative to the project root) and a
list of content lines. -/

/-- A file of a generated project. -/
structure SrcFile where
  path : String
  contentLines : List String
deriving DecidableEq, Repr

/-- A project is the list of its files. -/
abbrev Project := List SrcFile

/-- `[ -f path ]`. -/
def isFile (p : Project) (path : String) : Bool :=
  p.any (fun f => f.path = path)

/-- `[ -d d ]`: a directory exists when some file lives strictly below it. -/
def isDir (p : Project) (d : String) : Bool :=
  p.any (fun f => strStarts (d ++ "/") f.path)

/-- The lines of the file at `path` (empty if absent). -/
def fileLines (p : Project) (path : String) : List String :=
  match p.find? (fun f => f.path = path) with
  | some f => f.contentLines
  | none => []

/-- Slash-separated path components. -/
def comps (path : String) : List String :=
  splitSlashAux [] path.toList

/-- The `EXCLUDE_ARGS` of the script: `--exclude=check-code-quality.sh
--exclude=*.md --exclude=*.json --exclude-dir=node_modules --exclude-dir=dist
--exclude-dir=.git --exclude-dir=coverage --exclude-dir=reports`. -/
def grepExcluded (path : String) : Bool :=
  strEnds ".md" path || strEnds ".json" path ||
  (comps path).getLast? = some "check-code-quality.sh" ||
  (comps path).any (fun c =>
    c = "node_modules" || c = "dist" || c = ".git" || c = "coverage" || c = "reports")

/-- The files a recursive `grep -r $EXCLUDE_ARGS … dir` visits. -/
def grepTargets (p : Project) (d : String) : List SrcFile :=
  (p.filter (fun f => strStarts (d ++ "/") f.path)).filter
    (fun f => !grepExcluded f.path)

/-- Does a recursive grep over the given directories find a line satisfying
`pred`? -/
def dirGrep (p : Project) (dirs : List String) (pred : String → Bool) : Bool :=
  dirs.any (fun d => (grepTargets p d).any (fun f => f.contentLines.any pred))

/-- What one block of the script prints: the `❌` violations it reports
(each block that reports also sets `ERRORS_FOUND=1`, except CHECK 1c-2,
which aborts — see `abortRun`), the `⚠` warnings, and whether the block
kills the script.  `abortRun` models the `local count` statement at the top
level of CHECK 1c-2: `local` outside a function fails in bash, and under
`set -e` the whole script exits right there with the failing status. -/
structure StepOutcome where
  violations : List String := []
  warnings : List String := []
  abortRun : Bool := false
deriving Repr

/-- A block that reports a single violation when `cond` holds, modelling the
`check_pattern` / `check_literal` helpers and the inline `if` blocks. -/
def checkIf (cond : Bool) (msg : String) : StepOutcome :=
  if cond then { violations := [msg] } else {}

/-- CHECK 1a/1b: `check_pattern "$pattern" "src" …` — word-bounded
case-insensitive grep over `src`. -/
def checkWordSrc (p : Project) (pat : String) : StepOutcome :=
  checkIf (dirGrep p ["src"] (lineHasWord pat)) ("Found '" ++ pat ++ "' in source files")

/-- CHECK 1c: the same helper with the description `production code`. -/
def checkWordSrcProd (p : Project) (pat : String) : StepOutcome :=
  checkIf (dirGrep p ["src"] (lineHasWord pat)) ("Found '" ++ pat ++ "' in production code")

/-- CHECK 2d: `check_pattern` over `tests`. -/
def checkWordTests (p : Project) (pat : String) : StepOutcome :=
  checkIf (dirGrep p ["tests"] (lineHasWord pat)) ("Found '" ++ pat ++ "' in test files")

/-- `check_literal` over `src` (case-insensitive literal fragment; the
regex-escaped patterns `\.only\(`, `\.skip\(`, `console\.log\(` denote the
literal fragments `.only(` etc.). -/
def checkLiteralSrc (p : Project) (frag : String) (msg : String) : StepOutcome :=
  checkIf (dirGrep p ["src"] (lineHasCi frag)) msg

/-- Does one line match `Mock[A-Z][a-zA-Z]*` for the given marker
(case-sensitive `grep -rnE`): the marker followed immediately by an
uppercase letter. -/
def camelHere (marker : List Char) : List Char → Bool
  | [] => false
  | c :: rest =>
    (match csStrip marker (c :: rest) with
     | some (d :: _) => d.isUpper
     | _ => false) || camelHere marker rest

/-- CHECK 1c-2 for one marker in `Mock Fake Dummy Stub`. -/
def camelFound (p : Project) (marker : String) : Bool :=
  dirGrep p ["src"] (fun l => camelHere marker.toList l.toList)

/-- CHECK 1c-2: the loop over the four camel-case markers.  When a marker
matches, the block echoes the violation and then executes `local count` at
the top level of the script; `local` fails outside a function, and `set -e`
terminates the run there (the `ERRORS_FOUND=1` on the following line is
never reached, but the script still exits non-zero with `local`'s status). -/
def check1c2 (p : Project) : StepOutcome :=
  match ["Mock", "Fake", "Dummy", "Stub"].find? (fun m => camelFound p m) with
  | some m => { violations := ["Found test double in production code (" ++ m ++ "*)"],
                abortRun := true }
  | none => {}

/-- CHECK 2e: `grep -rniE "throw new Error.*not.*implement" src tests`. -/
def check2e (p : Project) : StepOutcome :=
  checkIf
    (dirGrep p ["src", "tests"]
      (fun l => ciSeq ["throw new Error".toList, "not".toList, "implement".toList] l.toList))
    "Found stub implementations (throw new Error not implemented)"

/-- CHECK 2g for one layer directory: `grep -rnE "throw new Error\(" src/D
| grep -v "DomainError"` — guarded by `[ -d src/D ]`. -/
def check2g (p : Project) (layerDir : String) : StepOutcome :=
  checkIf
    (isDir p ("src/" ++ layerDir) &&
      dirGrep p ["src/" ++ layerDir]
        (fun l => lineHasCs "throw new Error(" l && !lineHasCs "DomainError" l))
    ("Found generic 'throw new Error' in " ++ layerDir ++ " layer (use DomainError instead)")

/-- CHECK 2h: the first `^import` line of `src/index.ts` must mention
`reflect-metadata`; skipped when the file is absent or has no import line. -/
def check2h (p : Project) : StepOutcome :=
  if isFile p "src/index.ts" then
    match (fileLines p "src/index.ts").find? (fun l => strStarts "import" l) with
    | some l =>
      checkIf (!lineHasCs "reflect-metadata" l)
        "reflect-metadata must be the first import in src/index.ts (required for tsyringe)"
    | none => {}
  else {}

/-! ### CHECK 3: barrel exports -/

/-- The five layer directories the script iterates over in CHECK 3. -/
def layerNames : List String := ["domain", "application", "infrastructure", "mcp", "di"]

/-- The `❌ Missing barrel export` message for a layer. -/
def barrelMsg (l : String) : String :=
  "Missing barrel export: src/" ++ l ++ "/index.ts"

/-- CHECK 3: each of the five layers must have `src/<layer>/index.ts`. -/
def check3 (p : Project) : StepOutcome :=
  { violations :=
      layerNames.filterMap (fun l =>
        if isFile p ("src/" ++ l ++ "/index.ts") then none else some (barrelMsg l)) }

/-- The direct subdirectories of `src/<l>/` (the glob `src/<l>/*/`): the
distinct second-level names below the layer that contain at least one file. -/
def subdirsOf (p : Project) (l : String) : List String :=
  (p.filterMap (fun f =>
    match comps f.path with
    | "src" :: l' :: d :: _ :: _ => if l' = l then some d else none
    | _ => none)).dedup

/-- `find "$subdir" -maxdepth 1 -name "*.ts" ! -name "index.ts"` finds
something: the subdirectory directly contains a non-index `.ts` file. -/
def subdirHasLooseTs (p : Project) (l d : String) : Bool :=
  p.any (fun f =>
    match comps f.path with
    | ["src", l', d', name] =>
      l' = l && d' = d && strEnds ".ts" name && name ≠ "index.ts"
    | _ => false)

/-- The test `-f` on the subdirectory index file. -/
def subdirHasIndex (p : Project) (l d : String) : Bool :=
  p.any (fun f => comps f.path = ["src", l, d, "index.ts"])

/-- The `❌ Missing barrel export` message for a subdirectory. -/
def subdirBarrelMsg (l d : String) : String :=
  "Missing barrel export: src/" ++ l ++ "/" ++ d ++ "/index.ts"

/-- The layers whose subdirectories CHECK 3b inspects: the script's loop is
`for layer in domain application mcp` (infrastructure and di are skipped). -/
def check3bLayers : List String := ["domain", "application", "mcp"]

/-- `[ -d "src/<l>" ]` for the 3b loop, phrased over path components: the
layer directory exists when some file lives below it. -/
def layerDirExists (p : Project) (l : String) : Bool :=
  p.any (fun f =>
    match comps f.path with
    | "src" :: l' :: _ :: _ => l' = l
    | _ => false)

/-- CHECK 3b: subdirectory barrel exports, for domain/application/mcp only. -/
def check3b (p : Project) : StepOutcome :=
  { violations :=
      (check3bLayers.filter (fun l => layerDirExists p l)).flatMap (fun l =>
        (subdirsOf p l).filterMap (fun d =>
          if subdirHasLooseTs p l d && !subdirHasIndex p l d then
            some (subdirBarrelMsg l d)
          else none)) }

/-- The subdirectory names of the CHECK 3c regex alternation. -/
def barrelDirNames : List String :=
  ["entities", "value-objects", "errors", "use-cases", "schemas", "ports", "services", "tools"]

/-- After an occurrence of `/<dir>/`, does `[^']+\.js'` match?  The
non-quote run must be non-empty, end in `.js` and be terminated by `'`. -/
def jsQuoteTail (cs : List Char) : Bool :=
  let seg := cs.takeWhile (fun c => c ≠ '\'')
  match cs.drop seg.length with
  | '\'' :: _ => decide (4 ≤ seg.length) && List.isSuffixOf ".js".toList seg
  | _ => false

/-- Does the line contain `/<dir>/[^']+\.js'` for one of the barrel
directory names (scanning every occurrence of the `/<dir>/` anchor)? -/
def deepImportScan (anchor : List Char) : List Char → Bool
  | [] => false
  | c :: rest =>
    (match csStrip anchor (c :: rest) with
     | some suf => jsQuoteTail suf
     | none => false) || deepImportScan anchor rest

/-- One line of CHECK 3c's pipeline: contains `from '../`, matches
`/(entities|…|tools)/[^']+\.js'`, and does not contain `/index.js'`. -/
def directImportLine (l : String) : Bool :=
  lineHasCs "from '../" l &&
  barrelDirNames.any (fun d => deepImportScan ("/" ++ d ++ "/").toList l.toList) &&
  !lineHasCs "/index.js'" l

/-- CHECK 3c: direct imports bypassing barrel exports, over `src`. -/
def check3c (p : Project) : StepOutcome :=
  checkIf (dirGrep p ["src"] directImportLine)
    "Found direct imports bypassing barrel exports"

/-! ### CHECK 4: Zod validation in use cases -/

/-- `find src/application/use-cases -name "*.use-case.ts"`. -/
def useCaseFiles (p : Project) : List SrcFile :=
  p.filter (fun f =>
    strStarts "src/application/use-cases/" f.path && strEnds ".use-case.ts" f.path)

/-- CHECK 4: a use-case file that mentions `execute` must contain a
`\.(parse|safeParse)\(` call.  (Skipped when the directory is absent.) -/
def check4 (p : Project) : StepOutcome :=
  if isDir p "src/application/use-cases" then
    { violations :=
        (useCaseFiles p).filterMap (fun f =>
          if f.contentLines.any (lineHasCs "execute") &&
             !f.contentLines.any (fun l =>
               lineHasCs ".parse(" l || lineHasCs ".safeParse(" l) then
            some ("Use case missing Zod validation: " ++ f.path)
          else none) }
  else {}

/-! ### CHECK 5: domain error structure -/

/-- The four properties CHECK 5a requires in `base.error.ts`. -/
def baseErrorProps : List String := ["code", "suggestedFix", "isRetryable", "category"]

/-- `grep -qE "abstract.*prop|readonly.*prop"` on a file. -/
def hasAbstractProp (ls : List String) (prop : String) : Bool :=
  ls.any (fun l =>
    csSeq ["abstract".toList, prop.toList] l.toList ||
    csSeq ["readonly".toList, prop.toList] l.toList)

/-- CHECK 5a: `src/domain/errors/base.error.ts` must exist and declare all
four abstract properties. -/
def check5a (p : Project) : StepOutcome :=
  if isFile p "src/domain/errors/base.error.ts" then
    checkIf
      (!(baseErrorProps.all (hasAbstractProp (fileLines p "src/domain/errors/base.error.ts"))))
      "base.error.ts missing abstract properties"
  else
    { violations := ["Missing src/domain/errors/base.error.ts"] }

/-- CHECK 5b's file set: `*.error.ts` / `*.errors.ts` under
`src/domain/errors`, excluding `base.error.ts` and `index.ts`. -/
def domainErrorFiles (p : Project) : List SrcFile :=
  p.filter (fun f =>
    strStarts "src/domain/errors/" f.path &&
    (strEnds ".error.ts" f.path || strEnds ".errors.ts" f.path) &&
    !lineHasCs "base.error.ts" f.path && !lineHasCs "index.ts" f.path)

/-- The literal fragments CHECK 5b greps for in each error file. -/
def errorImplProps : List String := ["readonly code", "suggestedFix", "isRetryable", "category"]

/-- CHECK 5b: every concrete domain error file carries the four fragments. -/
def check5b (p : Project) : StepOutcome :=
  if isDir p "src/domain/errors" then
    { violations :=
        (domainErrorFiles p).filterMap (fun f =>
          if errorImplProps.all (fun prop => f.contentLines.any (lineHasCs prop)) then none
          else some ("Domain error " ++ f.path ++ " missing properties")) }
  else {}

/-! ### CHECK 6: BDD feature coverage -/

/-- All `.feature` files under `features/` (the recursive
`find features -name "*.feature"`). -/
def allFeatureFiles (p : Project) : List SrcFile :=
  p.filter (fun f => strStarts "features/" f.path && strEnds ".feature" f.path)

/-- The top-level feature files matched by the glob `features/*.feature`. -/
def topFeatureFiles (p : Project) : List SrcFile :=
  p.filter (fun f =>
    match comps f.path with
    | ["features", name] => strEnds ".feature" name
    | _ => false)

/-- Does a line match `^\s*(Scenario|Scenario Outline):`? -/
def isScenarioLine (l : String) : Bool :=
  let t := l.toList.dropWhile (fun c => c = ' ' || c = '\t')
  (csStrip "Scenario:".toList t).isSome || (csStrip "Scenario Outline:".toList t).isSome

/-- The number of scenario lines in a file. -/
def scenarioLineCount (ls : List String) : Nat :=
  (ls.filter isScenarioLine).length

/-- The string value of `SCENARIO_COUNT=$(grep -cE "…" "$f" 2>/dev/null ||
echo "0")`.  When the file has no scenario line, `grep -c` itself prints
`0` but exits 1, so the `|| echo "0"` also fires and the captured value is
the two-line string `0\n0`. -/
def scenarioCountCapture (ls : List String) : String :=
  if scenarioLineCount ls = 0 then "0\n0" else toString (scenarioLineCount ls)

/-- `[ "$s" -eq n ]` for bash's `test` builtin: a non-integer operand (such
as the two-line `0\n0`) is an error, which `if` treats as false. -/
def bashTestEq (s : String) (n : Nat) : Bool :=
  match strToNatOpt s with
  | some m => m = n
  | none => false

/-- CHECK 6a: the `features/` directory must exist. -/
def check6a (p : Project) : StepOutcome :=
  checkIf (!isDir p "features") "Missing features/ directory"

/-- CHECK 6b: at least one `.feature` file. -/
def check6b (p : Project) : StepOutcome :=
  checkIf ((allFeatureFiles p).length = 0) "No .feature files found in features/ directory"

/-- CHECK 6c: each top-level feature file must have a scenario.  The guard
is `[ "$FEATURE_COUNT" -gt 0 ]`; the inner test compares the captured
`SCENARIO_COUNT` string with 0 using bash's `-eq`. -/
def check6c (p : Project) : StepOutcome :=
  if 0 < (allFeatureFiles p).length then
    { violations :=
        (topFeatureFiles p).filterMap (fun f =>
          if bashTestEq (scenarioCountCapture f.contentLines) 0 then
            some ("Feature file has no scenarios: " ++ f.path)
          else none) }
  else {}

/-- CHECK 6d: `tests/step-definitions/` exists and holds a `.steps.ts`. -/
def check6d (p : Project) : StepOutcome :=
  if !isDir p "tests/step-definitions" then
    { violations := ["Missing tests/step-definitions/ directory"] }
  else
    checkIf
      (!(p.any (fun f =>
        strStarts "tests/step-definitions/" f.path && strEnds ".steps.ts" f.path)))
      "No .steps.ts files found in tests/step-definitions/"

/-- Total scenario lines over `features/*.feature` (CHECK 6f's
`TOTAL_SCENARIOS`, a clean `wc -l` number). -/
def totalScenarios (p : Project) : Nat :=
  ((topFeatureFiles p).map (fun f => scenarioLineCount f.contentLines)).sum

/-- `USE_CASE_COUNT` of CHECK 6f. -/
def useCaseCount (p : Project) : Nat :=
  (useCaseFiles p).length

/-- CHECK 6f: the scenario-per-use-case ratio below 2 only yields a `⚠`
warning, never a violation. -/
def check6f (p : Project) : StepOutcome :=
  if 0 < useCaseCount p && 0 < totalScenarios p then
    if totalScenarios p / useCaseCount p < 2 then
      { warnings := ["Low scenario coverage"] }
    else {}
  else {}

/-! ### CHECK 7: value objects throw DomainError -/

/-- `find src/domain/value-objects -name "*.vo.ts" -o -name
"*.value-object.ts"`. -/
def valueObjectFiles (p : Project) : List SrcFile :=
  p.filter (fun f =>
    strStarts "src/domain/value-objects/" f.path &&
    (strEnds ".vo.ts" f.path || strEnds ".value-object.ts" f.path))

/-- CHECK 7: a value-object file with a `throw new Error(` line not
mentioning `DomainError` is a violation. -/
def check7 (p : Project) : StepOutcome :=
  if isDir p "src/domain/value-objects" then
    { violations :=
        (valueObjectFiles p).filterMap (fun f =>
          if f.contentLines.any (fun l =>
               lineHasCs "throw new Error(" l && !lineHasCs "DomainError" l) then
            some ("Value object throws generic Error instead of DomainError: " ++ f.path)
          else none) }
  else {}

/-! ### CHECK 8–11: MCP tools -/

/-- `find src/mcp/tools -name "*.tool.ts"`. -/
def toolFiles (p : Project) : List SrcFile :=
  p.filter (fun f => strStarts "src/mcp/tools/" f.path && strEnds ".tool.ts" f.path)

/-- Does a line satisfy CHECK 8's structured-error regex
`(isError.*true|\{ error:|code:.*message:|formatError)`? -/
def structuredErrorLine (l : String) : Bool :=
  csSeq ["isError".toList, "true".toList] l.toList ||
  lineHasCs "\x7b error:" l ||
  csSeq ["code:".toList, "message:".toList] l.toList ||
  lineHasCs "formatError" l

/-- CHECK 8: every tool file needs both `try` and `catch`, and a structured
error response; each miss is its own violation. -/
def check8 (p : Project) : StepOutcome :=
  if isDir p "src/mcp/tools" then
    { violations :=
        (toolFiles p).flatMap (fun f =>
          (if f.contentLines.any (lineHasCs "try") &&
              f.contentLines.any (lineHasCs "catch") then []
           else ["MCP tool missing try-catch: " ++ f.path]) ++
          (if f.contentLines.any structuredErrorLine then []
           else ["MCP tool missing structured error response: " ++ f.path])) }
  else {}

/-- The maximal alphabetic run at the head of a character list. -/
def alphaRun (cs : List Char) : List Char :=
  cs.takeWhile Char.isAlpha

/-- The greedy match of `[A-Z][a-zA-Z]*suffix` against the head of an
alphabetic run: the longest prefix that starts with an uppercase letter,
is longer than the suffix, and ends with the suffix. -/
def greedyClassIdent (sufx : List Char) (run : List Char) : Option String :=
  ((List.range (run.length + 1)).reverse.findSome? (fun k =>
    let pfx := run.take k
    if decide (sufx.length < k) && List.isSuffixOf sufx pfx &&
       (pfx.headD 'a').isUpper then
      some (String.mk pfx)
    else none))

/-- Scan a line for `class [A-Z][a-zA-Z]*Suffix` (the regex of CHECKs 9 and
10) and return the matched identifier. -/
def classIdentScan (sufx : List Char) : List Char → Option String
  | [] => none
  | c :: rest =>
    match csStrip "class ".toList (c :: rest) with
    | some after =>
      match greedyClassIdent sufx (alphaRun after) with
      | some name => some name
      | none => classIdentScan sufx rest
    | none => classIdentScan sufx rest

/-- `CLASS_NAME=$(grep -oE "class [A-Z][a-zA-Z]*Suffix" "$f" | head -1 |
awk '{print $2}')`: the identifier of the first match in the file. -/
def classNameOf (sufx : String) (ls : List String) : Option String :=
  ls.findSome? (fun l => classIdentScan sufx.toList l.toList)

/-- CHECK 9: guarded by `src/mcp/server.ts` existing; a tool class not
mentioned in `server.ts` is a violation, a tool not resolved from the
container only a warning. -/
def check9 (p : Project) : StepOutcome :=
  if isFile p "src/mcp/server.ts" && isDir p "src/mcp/tools" then
    let serverLines := fileLines p "src/mcp/server.ts"
    { violations :=
        (toolFiles p).filterMap (fun f =>
          match classNameOf "Tool" f.contentLines with
          | some c =>
            if serverLines.any (lineHasCs c) then none
            else some ("Tool not registered in server.ts: " ++ c)
          | none => none),
      warnings :=
        (toolFiles p).filterMap (fun f =>
          match classNameOf "Tool" f.contentLines with
          | some c =>
            if serverLines.any (lineHasCs c) &&
               !serverLines.any (fun l => csSeq ["resolve".toList, c.toList] l.toList) then
              some ("Tool may not be resolved from container: " ++ c)
            else none
          | none => none) }
  else {}

/-- The top-level tool files matched by CHECK 10's glob
`src/mcp/tools/*.tool.ts`. -/
def topToolFiles (p : Project) : List SrcFile :=
  p.filter (fun f =>
    match comps f.path with
    | ["src", "mcp", "tools", name] => strEnds ".tool.ts" name
    | _ => false)

/-- The use-case class names CHECK 10 finds unexposed: extracted from each
use-case file and not mentioned in any `src/mcp/tools/*.tool.ts` file. -/
def unexposedUseCases (p : Project) : List String :=
  (useCaseFiles p).filterMap (fun f =>
    match classNameOf "UseCase" f.contentLines with
    | some c =>
      if (topToolFiles p).any (fun t => t.contentLines.any (lineHasCs c)) then none
      else some c
    | none => none)

/-- CHECK 10: an unexposed use case is echoed with `⚠` only — the block
sets no `ERRORS_FOUND`, so it can never contribute a violation. -/
def check10 (p : Project) : StepOutcome :=
  if isDir p "src/application/use-cases" && isDir p "src/mcp/tools" then
    { warnings := (unexposedUseCases p).map (fun c => "Use case not exposed via MCP tool: " ++ c) }
  else {}

/-- CHECK 11 merely prints a `✓` when the server imports from the tools
barrel; it reports nothing in any case. -/
def check11 (_p : Project) : StepOutcome := {}

/-! ### The whole script run

The script executes its blocks in order.  `ERRORS_FOUND` starts at 0 and is
set to 1 by every block that prints a `❌` violation — with the single
exception of CHECK 1c-2, whose `local count` fails at the top level and,
under `set -e`, exits the script immediately with `local`'s non-zero status
(its `ERRORS_FOUND=1` line is dead code).  The summary at the end exits 0
iff `ERRORS_FOUND` is still 0. -/

/-- The collected result of a script run: the violations and warnings
printed up to (and including) an aborting block, and whether the run was
cut short by the `set -e` abort. -/
structure RunResult where
  violations : List String
  warnings : List String
  aborted : Bool
deriving Repr

/-- Run the blocks in order, stopping at an aborting block. -/
def runSteps (steps : List (Project → StepOutcome)) (p : Project) : RunResult :=
  match steps with
  | [] => ⟨[], [], false⟩
  | s :: rest =>
    let o := s p
    if o.abortRun then ⟨o.violations, o.warnings, true⟩
    else
      let r := runSteps rest p
      ⟨o.violations ++ r.violations, o.warnings ++ r.warnings, r.aborted⟩

/-- The process exit status: an aborted run exits with `local`'s failing
status (non-zero); otherwise the summary exits 0 when `ERRORS_FOUND` is
still 0, i.e. when no block reported a violation, and 1 otherwise. -/
def RunResult.exitCode (r : RunResult) : Nat :=
  if r.aborted then 1 else if r.violations.isEmpty then 0 else 1

/-- The script's blocks in source order. -/
def scriptSteps : List (Project → StepOutcome) :=
  [ -- CHECK 1a: TODO/FIXME/XXX/HACK/BUG markers in src
    (fun p => checkWordSrc p "TODO"),
    (fun p => checkWordSrc p "FIXME"),
    (fun p => checkWordSrc p "XXX"),
    (fun p => checkWordSrc p "HACK"),
    (fun p => checkWordSrc p "BUG"),
    -- CHECK 1b: placeholder text
    (fun p => checkWordSrc p "not implemented"),
    (fun p => checkWordSrc p "implement this"),
    (fun p => checkWordSrc p "placeholder"),
    -- CHECK 1c: standalone test-double words in production code
    (fun p => checkWordSrcProd p "mock"),
    (fun p => checkWordSrcProd p "fake"),
    (fun p => checkWordSrcProd p "dummy"),
    (fun p => checkWordSrcProd p "stub"),
    -- CHECK 1c-2: camel-case test doubles (aborts on hit, see above)
    check1c2,
    -- CHECK 1d: focused/skipped tests
    (fun p => checkLiteralSrc p ".only(" "Found '.only(' in production code"),
    (fun p => checkLiteralSrc p ".skip(" "Found '.skip(' in production code"),
    -- CHECK 2a–2c: type-safety and lint bypasses
    (fun p => checkLiteralSrc p "as any" "Found 'as any' in source files"),
    (fun p => checkLiteralSrc p "@ts-ignore" "Found '@ts-ignore' in source files"),
    (fun p => checkLiteralSrc p "@ts-expect-error" "Found '@ts-expect-error' in source files"),
    (fun p => checkLiteralSrc p "eslint-disable" "Found 'eslint-disable' in source files"),
    -- CHECK 2d: markers in tests
    (fun p => checkWordTests p "TODO"),
    (fun p => checkWordTests p "FIXME"),
    (fun p => checkWordTests p "XXX"),
    (fun p => checkWordTests p "HACK"),
    -- CHECK 2e–2f
    check2e,
    (fun p => checkLiteralSrc p "console.log(" "Found console.log (use console.error for MCP)"),
    -- CHECK 2g: generic errors in domain and application
    (fun p => check2g p "domain"),
    (fun p => check2g p "application"),
    -- CHECK 2h
    check2h,
    -- CHECK 3, 3b, 3c
    check3, check3b, check3c,
    -- CHECK 4
    check4,
    -- CHECK 5a, 5b
    check5a, check5b,
    -- CHECK 6a–6d, 6f (6e prints nothing)
    check6a, check6b, check6c, check6d, check6f,
    -- CHECK 7–11
    check7, check8, check9, check10, check11 ]

/-- The full quality-gate script on a project. -/
def runScript (p : Project) : RunResult :=
  runSteps scriptSteps p

/-! ## Concrete projects

A minimal generated-project state that passes every reporting block of the
script, used as the baseline for the concrete runs below. -/

/-- The shared clean skeleton: the five layer barrels, a conforming
`base.error.ts`, one feature file with an implemented scenario, and one
step-definition file. -/
def baseProject : Project :=
  [ ⟨"src/domain/index.ts", ["export * from './errors/index.js';"]⟩,
    ⟨"src/domain/errors/index.ts", ["export * from './base.error.js';"]⟩,
    ⟨"src/domain/errors/base.error.ts",
      [ "export abstract class DomainError \x7b",
        "  abstract readonly code: string;",
        "  abstract readonly suggestedFix: string;",
        "  abstract readonly isRetryable: boolean;",
        "  abstract readonly category: string;",
        "\x7d" ]⟩,
    ⟨"src/application/index.ts", ["export const applicationLayer = true;"]⟩,
    ⟨"src/infrastructure/index.ts", ["export const infrastructureLayer = true;"]⟩,
    ⟨"src/mcp/index.ts", ["export const mcpLayer = true;"]⟩,
    ⟨"src/di/index.ts", ["export const diLayer = true;"]⟩,
    ⟨"features/demo.feature",
      [ "Feature: Demo",
        "",
        "  Scenario: works",
        "    Given a precondition",
        "    Then a result" ]⟩,
    ⟨"tests/step-definitions/demo.steps.ts",
      [ "Given('a precondition', function () \x7b\x7d);",
        "Then('a result', function () \x7b\x7d);" ]⟩ ]

/-- The base project plus a feature file whose step has no matching
step-definition implementation anywhere under `tests/step-definitions/`. -/
def undefinedStepProject : Project :=
  baseProject ++
  [ ⟨"features/pending.feature",
      [ "Feature: Pending work",
        "",
        "  Scenario: unwired behaviour",
        "    When nothing is wired",
        "    Then a result" ]⟩ ]

/-- The base project plus an orphan source file that no other file ever
references. -/
def orphanProject : Project :=
  baseProject ++
  [ ⟨"src/infrastructure/legacy-helper.ts", ["export const legacyHelper = 1;"]⟩ ]

/-- The base project plus a use case (with schema validation) and an empty
tools barrel, so that CHECK 10 sees a use case exposed by no tool. -/
def unexposedUseCaseProject : Project :=
  baseProject ++
  [ ⟨"src/application/use-cases/index.ts", ["export * from './demo.use-case.js';"]⟩,
    ⟨"src/application/use-cases/demo.use-case.ts",
      [ "import \x7b demoSchema \x7d from '../schemas/index.js';",
        "",
        "export class DemoUseCase \x7b",
        "  execute(input: unknown): unknown \x7b",
        "    return demoSchema.parse(input);",
        "  \x7d",
        "\x7d" ]⟩,
    ⟨"src/application/schemas/index.ts", ["export * from './demo.schema.js';"]⟩,
    ⟨"src/application/schemas/demo.schema.ts",
      [ "export const demoSchema = \x7b",
        "  parse: (input: unknown): unknown => input,",
        "\x7d;" ]⟩,
    ⟨"src/mcp/tools/index.ts", ["export const toolsBarrel = true;"]⟩ ]

/-- The base project with the domain barrel removed and a camel-case test
double added: CHECK 1c-2 hits, and CHECK 3 would also have something to
report. -/
def camelAbortProject : Project :=
  (baseProject.filter (fun f => f.path ≠ "src/domain/index.ts")) ++
  [ ⟨"src/infrastructure/registry.ts", ["export class MockService \x7b\x7d"]⟩ ]

/-- The base project plus a feature file containing no scenario line. -/
def emptyFeatureProject : Project :=
  baseProject ++
  [ ⟨"features/empty.feature",
      [ "Feature: Empty area",
        "",
        "  # scenarios to be written" ]⟩ ]

/-- The base project plus an infrastructure subdirectory holding a non-index
`.ts` file and no `index.ts` barrel. -/
def infraSubdirProject : Project :=
  baseProject ++
  [ ⟨"src/infrastructure/adapters/db-adapter.ts", ["export const dbAdapter = 1;"]⟩ ]

/-! ## Spec-side definitions for the missing checks

The repository's own unit tests (tests/unit/templates/code-quality-script
.test.ts, CHECK 6g and CHECK 12 groups) require the generated script to run
a Cucumber dry-run that flags undefined steps and a dead-code scan for
orphan files; the emitted script contains neither block.  The following
definitions state, over the same project model, what those checks are
supposed to detect, so that the theorems below can exhibit the failing
inputs. -/

/-- Modelled from the spec: the Gherkin step keywords that begin a step
line of a behaviour-specification file. -/
def stepKeywordList : List String := ["Given ", "When ", "Then ", "And ", "But "]

/-- Modelled from the spec: the step text of a feature-file line, when the
trimmed line starts with a step keyword. -/
def stepTextOf (line : String) : Option String :=
  let t := line.toList.dropWhile (fun c => c = ' ' || c = '\t')
  stepKeywordList.findSome? (fun k =>
    match csStrip k.toList t with
    | some rest => some (String.mk rest)
    | none => none)

/-- Modelled from the spec: every step text referenced by a feature file of
the project. -/
def featureStepTexts (p : Project) : List String :=
  (allFeatureFiles p).flatMap (fun f => f.contentLines.filterMap stepTextOf)

/-- Modelled from the spec: a step is implemented when some step-definition
file under `tests/step-definitions/` mentions its text. -/
def stepImplemented (p : Project) (t : String) : Bool :=
  p.any (fun f =>
    strStarts "tests/step-definitions/" f.path && strEnds ".steps.ts" f.path &&
    f.contentLines.any (lineHasCs t))

/-- Modelled from the spec: the project references at least one step that
has no step-definition implementation (what a Cucumber dry-run reports). -/
def hasUndefinedStep (p : Project) : Bool :=
  (featureStepTexts p).any (fun t => !stepImplemented p t)

/-- The basename of a source file without its `.ts` extension — the token
any import of the file must mention. -/
def stemOf (path : String) : String :=
  let base := (((comps path).getLast?).getD "").toList
  String.mk (base.take (base.length - 3))

/-- Modelled from the spec: an orphan source file — a file under `src/`
that no other file of the project ever references (in particular no
reachable entry point imports it). -/
def fileIsOrphan (p : Project) (o : String) : Bool :=
  isFile p o && strStarts "src/" o &&
  !(p.any (fun f => f.path ≠ o && f.contentLines.any (lineHasCs (stemOf o))))

/-- Modelled from the spec: the explicit allow-pattern excluding test-only
utility files (in-memory fakes) from the orphan scan. -/
def orphanExcluded (path : String) : Bool :=
  lineHasCs "in-memory" path

/-- A direct subdirectory of a layer directory that contains non-index
`.ts` files but no `index.ts` barrel (the condition of the barrel-presence
claim, phrased from the script's own predicates). -/
def subdirNeedsBarrel (p : Project) (l d : String) : Bool :=
  subdirHasLooseTs p l d && !subdirHasIndex p l d

/-! ## The CLI entry point

Embedded from `main` in the CLI entry script: argument parsing, the
project-name validation, and the scaffolding phase that follows it.  The
interactive prompt is modelled by a `promptAnswer` oracle. -/

/-- The observable effects of a `main` run, in order. -/
inductive GenEvent where
  | mkdirEvent (path : String)
  | writeEvent (path : String)
  | errorEvent (msg : String)
deriving DecidableEq, Repr

/-- The error printed for an invalid project name. -/
def nameErrorMsg : String :=
  "Error: Project name must start with a letter and contain only lowercase letters, numbers, and hyphens"

/-- The `directories` table of the CLI. -/
def scaffoldDirectories : List String :=
  [ "src/domain/entities", "src/domain/value-objects", "src/domain/errors",
    "src/application/use-cases", "src/application/ports", "src/application/schemas",
    "src/infrastructure", "src/mcp/tools", "src/di",
    "tests/unit/domain/entities", "tests/unit/domain/value-objects",
    "tests/unit/application/use-cases", "tests/step-definitions", "tests/mocks",
    "features", "scripts", "reports", ".husky" ]

/-- The keys of the `files` record written by `main` (config files,
documentation, scripts, misc files, the source and test templates, and the
example feature). -/
def scaffoldFilePaths : List String :=
  [ "package.json", "tsconfig.json", "tsconfig.eslint.json", "tsconfig.test.json",
    "eslint.config.js", "vitest.config.ts", "cucumber.cjs", ".prettierrc",
    "CLAUDE.md", "AGENTS.md", "CONVENTIONS.md", "TROUBLESHOOTING.md",
    "scripts/check-code-quality.sh", ".husky/pre-commit",
    ".gitignore", ".env.example",
    "src/index.ts", "src/di/container.ts", "src/di/index.ts",
    "src/domain/errors/base.error.ts", "src/domain/errors/index.ts", "src/domain/index.ts",
    "src/application/schemas/common.schema.ts", "src/application/schemas/index.ts",
    "src/application/ports/index.ts", "src/application/index.ts",
    "src/infrastructure/index.ts",
    "src/mcp/types.ts", "src/mcp/server.ts", "src/mcp/index.ts",
    "tests/setup.ts", "tests/step-definitions/world.ts",
    "tests/step-definitions/common.steps.ts",
    "tests/unit/domain/errors/base.error.test.ts", "tests/mocks/example.mock.ts",
    "features/example.feature" ]

/-- `/^[a-z][a-z0-9-]*$/`: a lowercase letter followed by lowercase
letters, digits and hyphens. -/
def validName (n : String) : Bool :=
  match n.toList with
  | [] => false
  | c :: rest =>
    ('a' ≤ c && c ≤ 'z') &&
    rest.all (fun d => ('a' ≤ d && d ≤ 'z') || d.isDigit || d = '-')

/-- The `--description` flag value when present and non-empty, else the
default `"<name> MCP server"`. -/
def resolveDescription (argv : List String) (name : String) : String :=
  match argv.findIdx? (fun a => a = "--description") with
  | some i =>
    match argv.get? (i + 1) with
    | some d => if d = "" then name ++ " MCP server" else d
    | none => name ++ " MCP server"
  | none => name ++ " MCP server"

/-- The scaffolding phase: every directory is created, then every file
written, under the project root named after the project. -/
def scaffoldEvents (name : String) : List GenEvent :=
  scaffoldDirectories.map (fun d => GenEvent.mkdirEvent (name ++ "/" ++ d)) ++
  scaffoldFilePaths.map (fun f => GenEvent.writeEvent (name ++ "/" ++ f))

/-- `main` up to its shell-out phase: resolve the name (argv position 2,
falling back to the prompt when absent, empty, or flag-like), resolve the
description, validate the name, and either exit 1 having printed only the
error, or scaffold.  The returned pair is the ordered event list and the
process exit code. -/
def mainEvents (argv : List String) (promptAnswer : String) : List GenEvent × Nat :=
  let name0 := (argv.get? 2).getD ""
  let name := if name0 = "" || strStarts "-" name0 then promptAnswer else name0
  let _description := resolveDescription argv name
  if validName name then
    (scaffoldEvents name, 0)
  else
    ([GenEvent.errorEvent nameErrorMsg], 1)

/-- A one-file project whose domain layer has a subdirectory with a loose
`.ts` file and no barrel, used to instantiate the barrel-scope theorem. -/
def barrelGapProject : Project :=
  [ ⟨"src/domain/widgets/widget.ts", ["export const widget = 1;"]⟩ ]

/-! ## Helper lemmas

Every block of the script except CHECK 1c-2 leaves `abortRun` false; CHECK
1c-2 aborts only after reporting its violation.  Together these give the
run-level invariant that an aborted run has a non-empty violation list. -/

theorem checkIf_abortRun (c : Bool) (m : String) : (checkIf c m).abortRun = false := by
  unfold checkIf; split <;> rfl

theorem check2h_abortRun (p : Project) : (check2h p).abortRun = false := by
  unfold check2h
  split
  · split
    · exact checkIf_abortRun _ _
    · rfl
  · rfl

theorem check4_abortRun (p : Project) : (check4 p).abortRun = false := by
  unfold check4; split <;> rfl

theorem check5a_abortRun (p : Project) : (check5a p).abortRun = false := by
  unfold check5a
  split
  · exact checkIf_abortRun _ _
  · rfl

theorem check5b_abortRun (p : Project) : (check5b p).abortRun = false := by
  unfold check5b; split <;> rfl

theorem check6c_abortRun (p : Project) : (check6c p).abortRun = false := by
  unfold check6c; split <;> rfl

theorem check6d_abortRun (p : Project) : (check6d p).abortRun = false := by
  unfold check6d
  split
  · rfl
  · exact checkIf_abortRun _ _

theorem check6f_abortRun (p : Project) : (check6f p).abortRun = false := by
  unfold check6f
  split
  · split <;> rfl
  · rfl

theorem check7_abortRun (p : Project) : (check7 p).abortRun = false := by
  unfold check7; split <;> rfl

theorem check8_abortRun (p : Project) : (check8 p).abortRun = false := by
  unfold check8; split <;> rfl

theorem check9_abortRun (p : Project) : (check9 p).abortRun = false := by
  unfold check9; split <;> rfl

theorem check10_abortRun (p : Project) : (check10 p).abortRun = false := by
  unfold check10; split <;> rfl

/-- A block of the script aborts only when it has reported a violation
(only CHECK 1c-2 can abort, and it echoes its `❌` first). -/
theorem scriptSteps_abort_inv :
    ∀ s ∈ scriptSteps, ∀ p, (s p).abortRun = true → (s p).violations ≠ [] := by
  intro s hs p habort
  simp only [scriptSteps, List.mem_cons, List.not_mem_nil, or_false] at hs
  repeat'
    rcases hs with rfl | hs
  all_goals
    first
    | (unfold check1c2 at habort ⊢; split at habort <;> simp_all)
    | simp_all [checkWordSrc, checkWordSrcProd, checkWordTests, checkLiteralSrc,
        checkIf_abortRun, check2e, check2g, check2h_abortRun, check3, check3b,
        check3c, check4_abortRun, check5a_abortRun, check5b_abortRun, check6a,
        check6b, check6c_abortRun, check6d_abortRun, check6f_abortRun,
        check7_abortRun, check8_abortRun, check9_abortRun, check10_abortRun,
        check11]

/-- An aborted run has already collected a violation. -/
theorem runSteps_abort_violations (steps : List (Project → StepOutcome)) (p : Project)
    (h : ∀ s ∈ steps, (s p).abortRun = true → (s p).violations ≠ []) :
    (runSteps steps p).aborted = true → (runSteps steps p).violations ≠ [] := by
  induction steps with
  | nil => simp [runSteps]
  | cons s rest ih =>
    intro hab
    unfold runSteps at hab ⊢
    by_cases hs : (s p).abortRun = true
    · simp only [hs, if_pos] at hab ⊢
      exact h s (List.mem_cons_self s rest) hs
    · rw [if_neg hs] at hab ⊢
      have hrest := ih (fun t ht => h t (List.mem_cons_of_mem s ht)) hab
      intro hcontra
      exact hrest (List.append_eq_nil.mp hcontra).2

/-- CHECK 3 reports the barrel message for a layer exactly when the layer's
`index.ts` is missing. -/
theorem barrelMsg_mem_iff (p : Project) (l : String) (hl : l ∈ layerNames) :
    (barrelMsg l ∈ (check3 p).violations ↔ isFile p ("src/" ++ l ++ "/index.ts") = false) := by
  unfold check3
  rw [List.mem_filterMap]
  constructor
  · rintro ⟨l', hl', hif⟩
    by_cases hfile : isFile p ("src/" ++ l' ++ "/index.ts") = true
    · rw [if_pos hfile] at hif
      exact Option.noConfusion hif
    · rw [if_neg hfile] at hif
      replace hif := Option.some.inj hif
      have hll : l' = l := by
        fin_cases hl' <;> fin_cases hl <;> first | rfl | (exact absurd hif (by decide))
      rw [← hll]
      simpa using hfile
  · intro hfile
    refine ⟨l, hl, ?_⟩
    rw [if_neg (by simp [hfile])]

/-- A subdirectory with a loose `.ts` file yields a project file whose path
splits as `src/<l>/<d>/<name>`. -/
theorem subdirHasLooseTs_shape (p : Project) (l d : String)
    (h : subdirHasLooseTs p l d = true) :
    ∃ f ∈ p, ∃ name, comps f.path = ["src", l, d, name] := by
  unfold subdirHasLooseTs at h
  rw [List.any_eq_true] at h
  obtain ⟨f, hf, hm⟩ := h
  refine ⟨f, hf, ?_⟩
  split at hm
  case h_1 l' d' name heq =>
    simp only [Bool.and_eq_true, decide_eq_true_eq] at hm
    exact ⟨name, by rw [heq, hm.1.1.1, hm.1.1.2]⟩
  case h_2 => exact absurd hm (by simp)

/-- CHECK 3b reports a barrel-less subdirectory of one of its three layers. -/
theorem subdir_barrel_reported (p : Project) (l d : String)
    (hl : l ∈ check3bLayers) (hn : subdirNeedsBarrel p l d = true) :
    subdirBarrelMsg l d ∈ (check3b p).violations := by
  have hn' := hn
  unfold subdirNeedsBarrel at hn'
  simp only [Bool.and_eq_true, Bool.not_eq_true'] at hn'
  obtain ⟨hloose, hindex⟩ := hn'
  obtain ⟨f, hf, name, heq⟩ := subdirHasLooseTs_shape p l d hloose
  unfold check3b
  simp only [List.mem_flatMap, List.mem_filter]
  refine ⟨l, ⟨hl, ?_⟩, ?_⟩
  · unfold layerDirExists
    rw [List.any_eq_true]
    exact ⟨f, hf, by rw [heq]; simp⟩
  · rw [List.mem_filterMap]
    refine ⟨d, ?_, ?_⟩
    · unfold subdirsOf
      rw [List.mem_dedup, List.mem_filterMap]
      exact ⟨f, hf, by rw [heq]; simp⟩
    · rw [if_pos (by rw [hloose, hindex]; rfl)]

/-- Conversely, every CHECK 3b violation names a barrel-less subdirectory of
one of the three inspected layers. -/
theorem subdir_violations_shape (p : Project) :
    ∀ m ∈ (check3b p).violations,
      ∃ l2, l2 ∈ check3bLayers ∧ ∃ d2,
        subdirNeedsBarrel p l2 d2 = true ∧ m = subdirBarrelMsg l2 d2 := by
  intro m hm
  unfold check3b at hm
  simp only [List.mem_flatMap, List.mem_filter, List.mem_filterMap] at hm
  obtain ⟨l2, ⟨hl2, _⟩, d2, _, hif⟩ := hm
  by_cases hcond : (subdirHasLooseTs p l2 d2 && !subdirHasIndex p l2 d2) = true
  · rw [if_pos hcond] at hif
    exact ⟨l2, hl2, d2, hcond, (Option.some.inj hif).symm⟩
  · rw [if_neg hcond] at hif
    exact absurd hif (by simp)

/-! ## Claim theorems -/

/-- C1: for every import edge between classified source files of a generated
project (entry aside, which the claim's lattice does not describe), the
generated ESLint `boundaries/element-types` configuration allows the edge
exactly when the destination layer lies in the source layer's allowed set of
the spec's fixed lattice, every other pair being denied by default. -/
theorem eslint_boundary_lattice_matches_spec (pf pt : String) (a b : Layer)
    (hf : classify pf = some a) (ht : classify pt = some b) (hne : a ≠ Layer.entry) :
    (edgeAllowed a b = true ↔ b ∈ specAllowedLayers a) := by
  clear hf ht
  revert hne
  revert a b
  decide

theorem eslint_boundary_lattice_matches_spec_witness :
    classify "src/application/use-cases/list.use-case.ts" = some Layer.application ∧
    classify "src/infrastructure/db.adapter.ts" = some Layer.infrastructure ∧
    Layer.application ≠ Layer.entry ∧
    (edgeAllowed Layer.application Layer.infrastructure = true ↔
      Layer.infrastructure ∈ specAllowedLayers Layer.application) :=
  ⟨by decide, by decide, by decide,
    eslint_boundary_lattice_matches_spec "src/application/use-cases/list.use-case.ts"
      "src/infrastructure/db.adapter.ts" Layer.application Layer.infrastructure
      (by decide) (by decide) (by decide)⟩

/-- C2: for every file classified into the domain layer, the generated
`boundaries/external` rule (`from: domain, disallow: ['*'], allow: []`)
denies every external package import, whatever the package. -/
theorem domain_external_imports_denied (path pkg : String)
    (h : classify path = some Layer.domain) :
    externalAllowed Layer.domain pkg = false := by
  clear h
  rfl

theorem domain_external_imports_denied_witness :
    classify "src/domain/entities/user.ts" = some Layer.domain ∧
    externalAllowed Layer.domain "zod" = false :=
  ⟨by decide, domain_external_imports_denied "src/domain/entities/user.ts" "zod" (by decide)⟩

/-- C3: the quality-gate script's exit status is binary on every project
state: it exits 0 exactly when no check reported a violation during the run,
and its only other exit status is the failing 1. -/
theorem quality_gate_exit_binary (p : Project) :
    ((runScript p).exitCode = 0 ↔ (runScript p).violations = []) ∧
    ((runScript p).exitCode = 0 ∨ (runScript p).exitCode = 1) := by
  have habv := runSteps_abort_violations scriptSteps p
    (fun s hs => scriptSteps_abort_inv s hs p)
  unfold runScript at habv ⊢
  unfold RunResult.exitCode
  constructor
  · by_cases hab : (runSteps scriptSteps p).aborted = true
    · rw [if_pos hab]
      constructor
      · intro h; exact absurd h (by decide)
      · intro h; exact absurd h (habv hab)
    · rw [if_neg hab]
      by_cases he : (runSteps scriptSteps p).violations.isEmpty = true
      · rw [if_pos he]
        simp [List.isEmpty_iff.mp he]
      · rw [if_neg he]
        constructor
        · intro h; exact absurd h (by decide)
        · intro h
          exact (he (by simp [h])).elim
  · by_cases hab : (runSteps scriptSteps p).aborted = true
    · right; rw [if_pos hab]
    · rw [if_neg hab]
      by_cases he : (runSteps scriptSteps p).violations.isEmpty = true
      · left; rw [if_pos he]
      · right; rw [if_neg he]

/-- C4: the generated script performs no undefined-step dry-run: on a
project whose feature file references a step with no step-definition
implementation (and which is otherwise clean), it reports nothing and exits
0, although the repository's own unit tests (CHECK 6g) require a Cucumber
`--dry-run` that sets `ERRORS_FOUND=1` for undefined steps. -/
theorem undefined_step_unreported :
    hasUndefinedStep undefinedStepProject = true ∧
    (runScript undefinedStepProject).violations = [] ∧
    (runScript undefinedStepProject).exitCode = 0 := by
  decide

/-- C5: the generated script performs no dead-code scan: on a project with
an orphan source file referenced nowhere (and not matching the test-utility
exclude pattern), it reports nothing and exits 0, although the repository's
own unit tests (CHECK 12) require an orphan-file scan that sets
`ERRORS_FOUND=1`. -/
theorem orphan_file_unreported :
    fileIsOrphan orphanProject "src/infrastructure/legacy-helper.ts" = true ∧
    orphanExcluded "src/infrastructure/legacy-helper.ts" = false ∧
    (runScript orphanProject).violations = [] ∧
    (runScript orphanProject).exitCode = 0 := by
  decide

/-- C6 (counterexample): a project whose only use case is referenced by no
`src/mcp/tools/*.tool.ts` file gets a CHECK 10 `⚠` warning, yet the run
records no violation and exits 0 — the claim's commit-blocking non-zero
exit does not happen. -/
theorem unexposed_use_case_exit_zero :
    unexposedUseCases unexposedUseCaseProject = ["DemoUseCase"] ∧
    "Use case not exposed via MCP tool: DemoUseCase" ∈
      (runScript unexposedUseCaseProject).warnings ∧
    (runScript unexposedUseCaseProject).violations = [] ∧
    (runScript unexposedUseCaseProject).exitCode = 0 := by
  decide

/-- C6 (amended): a use case reachable from no protocol-adapter handler is
reported by CHECK 10 as a warning only; the check records no violation and
never aborts, so by itself it cannot make the run exit non-zero. -/
theorem unexposed_use_case_warning_only (p : Project) (c : String)
    (hd : isDir p "src/application/use-cases" = true)
    (ht : isDir p "src/mcp/tools" = true)
    (hc : c ∈ unexposedUseCases p) :
    ("Use case not exposed via MCP tool: " ++ c) ∈ (check10 p).warnings ∧
    (check10 p).violations = [] ∧ (check10 p).abortRun = false := by
  unfold check10
  rw [if_pos (by simp [hd, ht])]
  exact ⟨List.mem_map.mpr ⟨c, hc, rfl⟩, rfl, rfl⟩

theorem unexposed_use_case_warning_only_witness :
    isDir unexposedUseCaseProject "src/application/use-cases" = true ∧
    isDir unexposedUseCaseProject "src/mcp/tools" = true ∧
    "DemoUseCase" ∈ unexposedUseCases unexposedUseCaseProject ∧
    ("Use case not exposed via MCP tool: " ++ "DemoUseCase") ∈
      (check10 unexposedUseCaseProject).warnings ∧
    (check10 unexposedUseCaseProject).violations = [] ∧
    (check10 unexposedUseCaseProject).abortRun = false := by
  refine ⟨by decide, by decide, by decide, ?_⟩
  exact unexposed_use_case_warning_only unexposedUseCaseProject "DemoUseCase"
    (by decide) (by decide) (by decide)

/-- C7: the run does stop at a violation: a camel-case test double makes
CHECK 1c-2 report and then abort the script (the top-level `local count`
fails under `set -e`), so the missing domain barrel that CHECK 3 would
report is never reported — only the first violation is surfaced, with exit
status 1. -/
theorem camel_double_aborts_scan :
    camelFound camelAbortProject "Mock" = true ∧
    isFile camelAbortProject "src/domain/index.ts" = false ∧
    (runScript camelAbortProject).aborted = true ∧
    (runScript camelAbortProject).violations =
      ["Found test double in production code (Mock*)"] ∧
    barrelMsg "domain" ∉ (runScript camelAbortProject).violations ∧
    (runScript camelAbortProject).exitCode = 1 := by
  decide

/-- C8: a feature file with zero scenario lines is never reported: the
captured `SCENARIO_COUNT` is the two-line string `0\n0` (`grep -c` prints
`0` and exits 1, so `|| echo "0"` fires too), the `-eq 0` test errors and
is treated as false, and the otherwise-clean run exits 0. -/
theorem zero_scenario_feature_unreported :
    isFile emptyFeatureProject "features/empty.feature" = true ∧
    scenarioLineCount (fileLines emptyFeatureProject "features/empty.feature") = 0 ∧
    (runScript emptyFeatureProject).violations = [] ∧
    (runScript emptyFeatureProject).exitCode = 0 := by
  decide

/-- C9 (counterexample): a direct subdirectory of `src/infrastructure` with
a loose `.ts` file and no `index.ts` triggers no missing-barrel violation —
CHECK 3b only loops over domain, application and mcp — and the otherwise
clean run exits 0. -/
theorem infrastructure_subdir_barrel_unreported :
    subdirNeedsBarrel infraSubdirProject "infrastructure" "adapters" = true ∧
    (runScript infraSubdirProject).violations = [] ∧
    (runScript infraSubdirProject).exitCode = 0 := by
  decide

/-- C9 (amended): layer-level barrels are enforced for all five layers
(CHECK 3 reports exactly the layers missing `src/<layer>/index.ts`), while
subdirectory barrels are enforced only for domain, application and mcp:
a barrel-less subdirectory of one of those three layers is always reported,
and every CHECK 3b violation comes from such a subdirectory of one of those
three layers. -/
theorem barrel_enforcement_scope (p : Project) (l d : String) :
    (l ∈ layerNames →
      (isFile p ("src/" ++ l ++ "/index.ts") = false ↔ barrelMsg l ∈ (check3 p).violations)) ∧
    (l ∈ check3bLayers → subdirNeedsBarrel p l d = true →
      subdirBarrelMsg l d ∈ (check3b p).violations) ∧
    (∀ m ∈ (check3b p).violations,
      ∃ l2, l2 ∈ check3bLayers ∧ ∃ d2,
        subdirNeedsBarrel p l2 d2 = true ∧ m = subdirBarrelMsg l2 d2) :=
  ⟨fun hl => (barrelMsg_mem_iff p l hl).symm,
   fun hl hn => subdir_barrel_reported p l d hl hn,
   subdir_violations_shape p⟩

theorem barrel_enforcement_scope_witness :
    ("domain" ∈ layerNames) ∧ ("domain" ∈ check3bLayers) ∧
    subdirNeedsBarrel barrelGapProject "domain" "widgets" = true ∧
    (isFile barrelGapProject "src/domain/index.ts" = false ↔
      barrelMsg "domain" ∈ (check3 barrelGapProject).violations) ∧
    subdirBarrelMsg "domain" "widgets" ∈ (check3b barrelGapProject).violations := by
  refine ⟨by decide, by decide, by decide, ?_, ?_⟩
  · exact (barrel_enforcement_scope barrelGapProject "domain" "widgets").1 (by decide)
  · exact (barrel_enforcement_scope barrelGapProject "domain" "widgets").2.1
      (by decide) (by decide)

/-- C10: a CLI-supplied project name (argv position 2, not consumed as a
flag) failing `^[a-z][a-z0-9-]*$` makes the generator print the
lowercase-letters/numbers/hyphens error and exit 1 with no directory or
file created; a matching name passes validation and scaffolding proceeds. -/
theorem cli_name_validation_gate (argv : List String) (pa n : String)
    (h2 : argv.get? 2 = some n) (hne : n ≠ "") (hfl : strStarts "-" n = false) :
    (validName n = false → mainEvents argv pa = ([GenEvent.errorEvent nameErrorMsg], 1)) ∧
    (validName n = true → mainEvents argv pa = (scaffoldEvents n, 0)) := by
  have h2' : argv[2]? = some n := by
    rw [← List.get?_eq_getElem?]
    exact h2
  constructor <;> intro hv <;> simp [mainEvents, h2', hne, hfl, hv]

theorem cli_name_validation_gate_witness :
    (["node", "cli", "My-App"].get? 2 = some "My-App") ∧
    validName "My-App" = false ∧
    mainEvents ["node", "cli", "My-App"] "unused" = ([GenEvent.errorEvent nameErrorMsg], 1) ∧
    validName "my-app" = true ∧
    mainEvents ["node", "cli", "my-app"] "unused" = (scaffoldEvents "my-app", 0) := by
  refine ⟨by decide, by decide, ?_, by decide, ?_⟩
  · exact (cli_name_validation_gate ["node", "cli", "My-App"] "unused" "My-App"
      (by decide) (by decide) (by decide)).1 (by decide)
  · exact (cli_name_validation_gate ["node", "cli", "my-app"] "unused" "my-app"
      (by decide) (by decide) (by decide)).2 (by decide)
